import Mathlib

/-!
Verification of the star-schema transformation stage of the Taxi-ETL pipeline
(`src/main.py`).  The pipeline reads a flat taxi-trip table, normalizes column
types (`dtype_optimization`, `datetime_conversion`), builds dimension tables
with surrogate keys (`creating_dimensions`) and a fact table keyed into them
(`creating_facts`).

The embedding below is shallow:

* A raw trip record (one pandas row after `datetime_conversion`) is the
  structure `RawRow`; timestamps are `Option ℤ` holding nanoseconds since the
  Unix epoch (`none` models pandas `NaT`), matching pandas `datetime64[ns]`.
  Float-valued columns are modelled as exact rationals (`ℚ`), with `Option ℚ`
  where pandas `NaN` can occur; pandas deduplication and index lookup treat
  `NaN` as equal to `NaN`, which `Option` equality mirrors.
* `drop_duplicates()` keeps the first occurrence of each row, embedded by
  `dedupFirst`; `reset_index(drop=True).reset_index(names=key)` assigns
  0-based sequential surrogate keys in that order, embedded by `List.enum`.
* `Series.map(other.set_index(k)[key])` is an index lookup producing `NaN`
  (here `none`) when the key is absent, embedded by `List.find?`.
* The `try/except` blocks of `creating_dimensions` / `creating_facts` are
  embedded by an explicit column-presence check (`creating_dimensions` on a
  `DynRaw` table) and by `Except String` (`creating_facts` over `DimDict`,
  whose `Option` fields model presence of keys in the Python dict).
* `dtype_optimization` and `datetime_conversion` act on an untyped frame
  (`Frame`, a list of named `TypedCol` columns); pandas' in-place column
  assignment is modelled by an explicit heap of frames (`List Frame`) with
  the called function returning the address of the very object it received.
-/

namespace TaxiETL

/-! ### List helpers: pandas `drop_duplicates(keep='first')` -/

/-- Core of `dedupFirst`: drop every element already in `seen` or seen
earlier in the list, keeping first occurrences in order. -/
def dedupFirstAux {α : Type} [DecidableEq α] (seen : List α) : List α → List α
  | [] => []
  | x :: xs => if x ∈ seen then dedupFirstAux seen xs else x :: dedupFirstAux (x :: seen) xs

/-- Embedding of pandas `DataFrame.drop_duplicates()` (default `keep='first'`):
keep the first occurrence of each value, in first-occurrence order. -/
def dedupFirst {α : Type} [DecidableEq α] (xs : List α) : List α :=
  dedupFirstAux [] xs

/-! ### Calendar arithmetic on `datetime64[ns]` values

`main.py` derives calendar attributes via the pandas `.dt` accessor.  A
timestamp is an integer count of nanoseconds since 1970-01-01T00:00:00 UTC.
The civil-calendar conversion uses the standard era decomposition. -/

def nsPerDay : ℤ := 86400000000000

def nsPerHour : ℤ := 3600000000000

/-- Days since the epoch of the instant `t` (ns), flooring. -/
def tsEpochDays (t : ℤ) : ℤ := Int.fdiv t nsPerDay

/-- The `(year, month, day)` triple of a count of days since 1970-01-01. -/
def civilFromDays (z : ℤ) : ℤ × ℤ × ℤ :=
  let z2 := z + 719468
  let era := Int.fdiv z2 146097
  let doe := z2 - era * 146097
  let yoe := Int.fdiv (doe - Int.fdiv doe 1460 + Int.fdiv doe 36524 - Int.fdiv doe 146096) 365
  let y := yoe + era * 400
  let doy := doe - (365 * yoe + Int.fdiv yoe 4 - Int.fdiv yoe 100)
  let mp := Int.fdiv (5 * doy + 2) 153
  let d := doy - Int.fdiv (153 * mp + 2) 5 + 1
  let m := if mp < 10 then mp + 3 else mp - 9
  (if m ≤ 2 then y + 1 else y, m, d)

/-- Inverse of `civilFromDays`: days since 1970-01-01 of a civil date. -/
def daysFromCivil (y m d : ℤ) : ℤ :=
  let y2 := if m ≤ 2 then y - 1 else y
  let era := Int.fdiv y2 400
  let yoe := y2 - era * 400
  let mp := if 2 < m then m - 3 else m + 9
  let doy := Int.fdiv (153 * mp + 2) 5 + d - 1
  let doe := yoe * 365 + Int.fdiv yoe 4 - Int.fdiv yoe 100 + doy
  era * 146097 + doe - 719468

/-- pandas `Series.dt.hour`. -/
def tsHour (t : ℤ) : ℤ := Int.fdiv (Int.emod t nsPerDay) nsPerHour

/-- pandas `Series.dt.date`, as a `(year, month, day)` triple. -/
def tsDate (t : ℤ) : ℤ × ℤ × ℤ := civilFromDays (tsEpochDays t)

def tsYear (t : ℤ) : ℤ := (tsDate t).1

def tsMonth (t : ℤ) : ℤ := (tsDate t).2.1

def tsDay (t : ℤ) : ℤ := (tsDate t).2.2

/-- pandas `Series.dt.day_of_week` / `.weekday`: Monday = 0 … Sunday = 6.
1970-01-01 was a Thursday (= 3). -/
def tsDayOfWeek (t : ℤ) : ℤ := Int.emod (tsEpochDays t + 3) 7

def tsQuarter (t : ℤ) : ℤ := Int.fdiv (tsMonth t - 1) 3 + 1

/-- pandas `Series.dt.day_name()`. -/
def dayNameOf (w : ℤ) : String :=
  if w = 0 then ("Monday") else if w = 1 then ("Tuesday") else if w = 2 then ("Wednesday")
  else if w = 3 then ("Thursday") else if w = 4 then ("Friday") else if w = 5 then ("Saturday")
  else ("Sunday")

/-- pandas `Series.dt.month_name()`. -/
def monthNameOf (m : ℤ) : String :=
  if m = 1 then ("January") else if m = 2 then ("February") else if m = 3 then ("March")
  else if m = 4 then ("April") else if m = 5 then ("May") else if m = 6 then ("June")
  else if m = 7 then ("July") else if m = 8 then ("August") else if m = 9 then ("September")
  else if m = 10 then ("October") else if m = 11 then ("November") else ("December")

/-! ### Rounding

`main.py` line 188 uses Python `round(x, 2)`, which rounds half to even. -/

/-- Round half to even, the tie-breaking rule of Python `round`. -/
def roundHalfEven (q : ℚ) : ℤ :=
  let f : ℤ := ⌊q⌋
  let r : ℚ := q - (f : ℚ)
  if r < 1/2 then f else if 1/2 < r then f + 1 else if f % 2 = 0 then f else f + 1

/-- Python `round(x, 2)`: round to 2 decimal places, half to even. -/
def round2 (q : ℚ) : ℚ := (roundHalfEven (q * 100) : ℚ) / 100

/-! ### Data model: the raw trip table -/

/-- A pandas timestamp cell: nanoseconds since the epoch, `none` = `NaT`. -/
abbrev Ts := Option ℤ

/-- One row of the raw taxi-trip table consumed by `creating_dimensions` and
`creating_facts`, after `datetime_conversion` has been applied to the two
`tpep` columns.  Integer-coded columns are `ℤ`; float columns are `ℚ`
(coordinates are `Option ℚ` so that a `NaN` coordinate is representable). -/
structure RawRow where
  VendorID : ℤ
  tpep_pickup_datetime : Ts
  tpep_dropoff_datetime : Ts
  passenger_count : ℚ
  trip_distance : ℚ
  pickup_longitude : Option ℚ
  pickup_latitude : Option ℚ
  RatecodeID : ℤ
  store_and_fwd_flag : Option String
  dropoff_longitude : Option ℚ
  dropoff_latitude : Option ℚ
  payment_type : ℤ
  fare_amount : ℚ
  extra : ℚ
  mta_tax : ℚ
  tip_amount : ℚ
  tolls_amount : ℚ
  improvement_surcharge : ℚ
  total_amount : ℚ
deriving DecidableEq, Repr

/-! ### Static code lookups (`main.py` lines 80-85, 124-132, 140-148)

Python `Series.map(dict)` yields `NaN` for keys absent from the dict; the
embeddings return `none` there. -/

/-- The `vendor_dict` of `creating_dimensions`. -/
def vendor_dict (v : ℤ) : Option String :=
  if v = 1 then some ("Creative Mobile Technologies, LLC")
  else if v = 2 then some ("Curb Mobility, LLC")
  else if v = 6 then some ("Myle Technologies Inc")
  else if v = 7 then some ("Helix")
  else none

/-- The `ratecode_dict` of `creating_dimensions`. -/
def ratecode_dict (v : ℤ) : Option String :=
  if v = 1 then some ("Standard")
  else if v = 2 then some ("JFK")
  else if v = 3 then some ("Newark")
  else if v = 4 then some ("LaGuardia")
  else if v = 5 then some ("Negotiated Fare")
  else if v = 6 then some ("Group ride")
  else if v = 99 then some ("Unknown")
  else none

/-- The `payment_dict` of `creating_facts`. -/
def payment_dict (v : ℤ) : Option String :=
  if v = 0 then some ("Flex Fare trip")
  else if v = 1 then some ("Credit Card")
  else if v = 2 then some ("Cash")
  else if v = 3 then some ("No charge")
  else if v = 4 then some ("Dispute")
  else if v = 5 then some ("Unknown")
  else if v = 6 then some ("Voided_trip")
  else none

/-! ### Dimension tables (`creating_dimensions`, `main.py` lines 71-157) -/

/-- A row of `dim_vendor`: surrogate key, natural key `VendorID`, mapped label. -/
structure VendorRow where
  dim_vendor_key : ℕ
  VendorID : ℤ
  vendor_name : Option String
deriving DecidableEq, Repr

/-- A row of `dim_datetime`: surrogate key, the natural key `full_datetime`,
and the calendar attributes derived through the pandas `.dt` accessor (each
`NaN`/`none` when `full_datetime` is `NaT`).  `is_weekend` comes from
`weekday.isin([5,6])`, which is `False` on `NaN`, hence a plain `Bool`. -/
structure DatetimeRow where
  dim_datetime_key : ℕ
  full_datetime : Ts
  hour : Option ℤ
  date : Option (ℤ × ℤ × ℤ)
  day : Option ℤ
  day_of_week : Option ℤ
  day_name : Option String
  year : Option ℤ
  month_name : Option String
  weekday : Option ℤ
  is_weekend : Bool
  quarter : Option ℤ
  month : Option ℤ
deriving DecidableEq, Repr

/-- A row of `dim_pickup_location`. -/
structure PickupLocationRow where
  dim_pickup_location_key : ℕ
  pickup_latitude : Option ℚ
  pickup_longitude : Option ℚ
deriving DecidableEq, Repr

/-- A row of `dim_dropoff_location`. -/
structure DropoffLocationRow where
  dim_dropoff_location_key : ℕ
  dropoff_latitude : Option ℚ
  dropoff_longitude : Option ℚ
deriving DecidableEq, Repr

/-- A row of `dim_ratecode`. -/
structure RatecodeRow where
  dim_ratecode_key : ℕ
  RatecodeID : ℤ
  ratecode_description : Option String
deriving DecidableEq, Repr

/-- A row of `dim_payment_type`. -/
structure PaymentTypeRow where
  dim_payment_type_key : ℕ
  payment_type : ℤ
  payment_type_description : Option String
deriving DecidableEq, Repr

/-- Embeds `main.py` lines 78-86: project on `VendorID`, `drop_duplicates()`,
`reset_index(drop=True)`, `reset_index(names='dim_vendor_key')` (0-based
sequential keys in first-occurrence order), then `.map(vendor_dict)`. -/
def dim_vendor (df : List RawRow) : List VendorRow :=
  (dedupFirst (df.map RawRow.VendorID)).enum.map
    (fun p => ⟨p.1, p.2, vendor_dict p.2⟩)

/-- Embeds `main.py` lines 95-105: the calendar attribute columns attached to one
`dim_datetime` row, as functions of its `full_datetime` value. -/
def calendarRow (p : ℕ × Ts) : DatetimeRow :=
  { dim_datetime_key := p.1
    full_datetime := p.2
    hour := p.2.map tsHour
    date := p.2.map tsDate
    day := p.2.map tsDay
    day_of_week := p.2.map tsDayOfWeek
    day_name := p.2.map (fun t => dayNameOf (tsDayOfWeek t))
    year := p.2.map tsYear
    month_name := p.2.map (fun t => monthNameOf (tsMonth t))
    weekday := p.2.map tsDayOfWeek
    is_weekend :=
      match p.2 with
      | some t => decide (tsDayOfWeek t = 5 ∨ tsDayOfWeek t = 6)
      | none => false
    quarter := p.2.map tsQuarter
    month := p.2.map tsMonth }

/-- Embeds `main.py` lines 91-105: `full_datetime` is
`pd.concat([df['tpep_pickup_datetime'], df['tpep_dropoff_datetime']])`,
then `drop_duplicates()`, 0-based sequential keys, and derived calendar
attribute columns. -/
def dim_datetime (df : List RawRow) : List DatetimeRow :=
  (dedupFirst (df.map RawRow.tpep_pickup_datetime ++ df.map RawRow.tpep_dropoff_datetime)).enum.map
    calendarRow

/-- Embeds `main.py` lines 110-111: distinct `(pickup_latitude, pickup_longitude)`
pairs with 0-based sequential keys. -/
def dim_pickup_location (df : List RawRow) : List PickupLocationRow :=
  (dedupFirst (df.map (fun r => (r.pickup_latitude, r.pickup_longitude)))).enum.map
    (fun p => ⟨p.1, p.2.1, p.2.2⟩)

/-- Embeds `main.py` lines 116-117: distinct `(dropoff_latitude, dropoff_longitude)`
pairs with 0-based sequential keys. -/
def dim_dropoff_location (df : List RawRow) : List DropoffLocationRow :=
  (dedupFirst (df.map (fun r => (r.dropoff_latitude, r.dropoff_longitude)))).enum.map
    (fun p => ⟨p.1, p.2.1, p.2.2⟩)

/-- Embeds `main.py` lines 122-133: distinct `RatecodeID` values with 0-based keys
and the `ratecode_dict` label. -/
def dim_ratecode (df : List RawRow) : List RatecodeRow :=
  (dedupFirst (df.map RawRow.RatecodeID)).enum.map
    (fun p => ⟨p.1, p.2, ratecode_dict p.2⟩)

/-- Embeds `main.py` lines 138-149: distinct `payment_type` values with 0-based keys
and the `payment_dict` label. -/
def dim_payment_type (df : List RawRow) : List PaymentTypeRow :=
  (dedupFirst (df.map RawRow.payment_type)).enum.map
    (fun p => ⟨p.1, p.2, payment_dict p.2⟩)

/-- The six dimension tables built by the `try` block of
`creating_dimensions` when every declared source column is present. -/
structure Dimensions where
  dim_vendor : List VendorRow
  dim_datetime : List DatetimeRow
  dim_pickup_location : List PickupLocationRow
  dim_dropoff_location : List DropoffLocationRow
  dim_ratecode : List RatecodeRow
  dim_payment_type : List PaymentTypeRow
deriving DecidableEq, Repr

/-- The body of `creating_dimensions` on a raw table that has all declared
columns: every dimension is built from the same raw table. -/
def creating_dimensions_ok (df : List RawRow) : Dimensions :=
  { dim_vendor := dim_vendor df
    dim_datetime := dim_datetime df
    dim_pickup_location := dim_pickup_location df
    dim_dropoff_location := dim_dropoff_location df
    dim_ratecode := dim_ratecode df
    dim_payment_type := dim_payment_type df }

/-! ### `creating_dimensions` with its `try/except` (`main.py` lines 76-157)

The whole body of `creating_dimensions` sits inside a single `try`; the
`except` clause logs and `return {}`.  The exception relevant to the declared
failure mode is a `KeyError` from projecting the raw table on a column it
does not have, so the embedding carries the set of column names the raw
table actually has (`DynRaw.present`) next to the row data. -/

/-- A raw table whose set of columns is not statically known: `present` lists
the column names the table has; `rows` carries the data of the present
columns (fields of absent columns are never consulted on any path that
checks presence first, mirroring Python's dynamic attribute access). -/
structure DynRaw where
  present : List String
  rows : List RawRow
deriving DecidableEq, Repr

/-- One of the six dimension tables, as a value of the Python dict
`dimensions` built by `creating_dimensions`. -/
inductive DimTable where
  | vendor (t : List VendorRow)
  | datetime (t : List DatetimeRow)
  | pickupLocation (t : List PickupLocationRow)
  | dropoffLocation (t : List DropoffLocationRow)
  | ratecode (t : List RatecodeRow)
  | payment (t : List PaymentTypeRow)
deriving DecidableEq, Repr

/-- The columns projected by the six dimension builds, in the order the
`try` block of `creating_dimensions` reads them. -/
def requiredDimColumns : List String :=
  ["VendorID", "tpep_pickup_datetime", "tpep_dropoff_datetime",
   "pickup_latitude", "pickup_longitude", "dropoff_latitude", "dropoff_longitude",
   "RatecodeID", "payment_type"]

/-- Embeds `main.py` lines 71-157.  If every declared column is present the `try`
block completes and the dict holds all six dimensions; if any projection
raises (missing declared column) the `except` clause returns the empty
dict — intermediate dimensions already built are discarded. -/
def creating_dimensions (df : DynRaw) : List (String × DimTable) :=
  if requiredDimColumns.all (fun c => decide (c ∈ df.present)) then
    [("dim_vendor", DimTable.vendor (dim_vendor df.rows)),
     ("dim_datetime", DimTable.datetime (dim_datetime df.rows)),
     ("dim_pickup_location", DimTable.pickupLocation (dim_pickup_location df.rows)),
     ("dim_dropoff_location", DimTable.dropoffLocation (dim_dropoff_location df.rows)),
     ("dim_ratecode", DimTable.ratecode (dim_ratecode df.rows)),
     ("dim_payment_type", DimTable.payment (dim_payment_type df.rows))]
  else []

/-! ### Surrogate-key lookups (`main.py` lines 170-176)

`df[c].map(dim.set_index(k)[key])` looks each raw value up in the dimension's
natural-key index and yields the surrogate key, or `NaN` when absent. -/

/-- Lookup of a `VendorID` in `dim_vendor`. -/
def vendorKeyOf (dv : List VendorRow) (v : ℤ) : Option ℕ :=
  (dv.find? (fun r => decide (r.VendorID = v))).map VendorRow.dim_vendor_key

/-- Lookup of an instant in `dim_datetime` (used for both the pickup and the
dropoff key).  pandas index lookup matches `NaT` against `NaT`, as `Option`
equality does. -/
def datetimeKeyOf (dd : List DatetimeRow) (v : Ts) : Option ℕ :=
  (dd.find? (fun r => decide (r.full_datetime = v))).map DatetimeRow.dim_datetime_key

/-- Lookup of a coordinate pair in `dim_pickup_location`. -/
def pickupLocationKeyOf (dl : List PickupLocationRow) (la lo : Option ℚ) : Option ℕ :=
  (dl.find? (fun r => decide (r.pickup_latitude = la ∧ r.pickup_longitude = lo))).map
    PickupLocationRow.dim_pickup_location_key

/-- Lookup of a coordinate pair in `dim_dropoff_location`. -/
def dropoffLocationKeyOf (dl : List DropoffLocationRow) (la lo : Option ℚ) : Option ℕ :=
  (dl.find? (fun r => decide (r.dropoff_latitude = la ∧ r.dropoff_longitude = lo))).map
    DropoffLocationRow.dim_dropoff_location_key

/-- Lookup of a `RatecodeID` in `dim_ratecode`. -/
def ratecodeKeyOf (dr : List RatecodeRow) (v : ℤ) : Option ℕ :=
  (dr.find? (fun r => decide (r.RatecodeID = v))).map RatecodeRow.dim_ratecode_key

/-- Lookup of a `payment_type` in `dim_payment_type`. -/
def paymentKeyOf (dp : List PaymentTypeRow) (v : ℤ) : Option ℕ :=
  (dp.find? (fun r => decide (r.payment_type = v))).map PaymentTypeRow.dim_payment_type_key

/-! ### The fact table (`creating_facts`, `main.py` lines 159-200) -/

/-- One row of `fact_trips`: sequential `trip_id`, seven foreign keys (`NaN`
= `none` on a failed lookup), the measures copied forward, and the derived
`trip_duration_minutes` (`NaN` when either instant is `NaT`). -/
structure FactRow where
  trip_id : ℤ
  dim_vendor_key : Option ℕ
  pickup_datetime_key : Option ℕ
  dropoff_datetime_key : Option ℕ
  dim_pickup_location_key : Option ℕ
  dim_dropoff_location_key : Option ℕ
  dim_ratecode_key : Option ℕ
  dim_payment_type_key : Option ℕ
  passenger_count : ℚ
  trip_distance : ℚ
  fare_amount : ℚ
  extra : ℚ
  mta_tax : ℚ
  tip_amount : ℚ
  tolls_amount : ℚ
  improvement_surcharge : ℚ
  total_amount : ℚ
  trip_duration_minutes : Option ℚ
  store_and_fwd_flag : Option String
deriving DecidableEq, Repr

/-- Embeds `main.py` line 188:
`round((dropoff - pickup).dt.total_seconds() / 60, 2)`.  The difference of
two `datetime64[ns]` values is in nanoseconds, `total_seconds()` divides by
10^9, and the result is `NaN` (`none`) when either operand is `NaT`. -/
def tripDurationMinutes (pu do_ : Ts) : Option ℚ :=
  match pu, do_ with
  | some p, some d => some (round2 (((d : ℚ) - (p : ℚ)) / 1000000000 / 60))
  | _, _ => none

/-- The fact row generated from the raw row at (0-based) positional index
`i`: `trip_id = df.index + 1` (lines 166-189). -/
def factRowOf (dims : Dimensions) (i : ℕ) (r : RawRow) : FactRow :=
  { trip_id := (i : ℤ) + 1
    dim_vendor_key := vendorKeyOf dims.dim_vendor r.VendorID
    pickup_datetime_key := datetimeKeyOf dims.dim_datetime r.tpep_pickup_datetime
    dropoff_datetime_key := datetimeKeyOf dims.dim_datetime r.tpep_dropoff_datetime
    dim_pickup_location_key :=
      pickupLocationKeyOf dims.dim_pickup_location r.pickup_latitude r.pickup_longitude
    dim_dropoff_location_key :=
      dropoffLocationKeyOf dims.dim_dropoff_location r.dropoff_latitude r.dropoff_longitude
    dim_ratecode_key := ratecodeKeyOf dims.dim_ratecode r.RatecodeID
    dim_payment_type_key := paymentKeyOf dims.dim_payment_type r.payment_type
    passenger_count := r.passenger_count
    trip_distance := r.trip_distance
    fare_amount := r.fare_amount
    extra := r.extra
    mta_tax := r.mta_tax
    tip_amount := r.tip_amount
    tolls_amount := r.tolls_amount
    improvement_surcharge := r.improvement_surcharge
    total_amount := r.total_amount
    trip_duration_minutes := tripDurationMinutes r.tpep_pickup_datetime r.tpep_dropoff_datetime
    store_and_fwd_flag := r.store_and_fwd_flag }

/-- The `fact_trips` frame of `creating_facts` (lines 166-189): every column
is an element-wise map over the raw table aligned on its index, so the frame
is the row-wise image of the raw table. -/
def fact_trips (df : List RawRow) (dims : Dimensions) : List FactRow :=
  df.enum.map (fun p => factRowOf dims p.1 p.2)

/-- The Python dict `dimensions` passed to `creating_facts`, restricted to
the six keys the function reads; an `Option` field is `none` when that key
is absent from the dict (`dimensions[name]` then raises `KeyError(name)`). -/
structure DimDict where
  dim_vendor : Option (List VendorRow)
  dim_datetime : Option (List DatetimeRow)
  dim_pickup_location : Option (List PickupLocationRow)
  dim_dropoff_location : Option (List DropoffLocationRow)
  dim_ratecode : Option (List RatecodeRow)
  dim_payment_type : Option (List PaymentTypeRow)
deriving DecidableEq, Repr

/-- The `DimDict` holding exactly the six dimensions of a `Dimensions`. -/
def toDimDict (d : Dimensions) : DimDict :=
  { dim_vendor := some d.dim_vendor
    dim_datetime := some d.dim_datetime
    dim_pickup_location := some d.dim_pickup_location
    dim_dropoff_location := some d.dim_dropoff_location
    dim_ratecode := some d.dim_ratecode
    dim_payment_type := some d.dim_payment_type }

/-- Embeds `main.py` lines 159-200.  The dict accesses of lines 170-176 are read in
program order; the first absent key raises `KeyError(name)`, the `except`
clause logs the error (carrying that name) and no fact table is produced,
which the embedding reports as `Except.error name`.  When all six keys are
present the function returns the dict `{'fact_trips': fact_trips}`, of which
the embedding keeps the single fact table. -/
def creating_facts (df : List RawRow) (dims : DimDict) : Except String (List FactRow) :=
  match dims.dim_vendor with
  | none => Except.error ("dim_vendor")
  | some dv =>
    match dims.dim_datetime with
    | none => Except.error ("dim_datetime")
    | some ddt =>
      match dims.dim_pickup_location with
      | none => Except.error ("dim_pickup_location")
      | some dpl =>
        match dims.dim_dropoff_location with
        | none => Except.error ("dim_dropoff_location")
        | some ddl =>
          match dims.dim_ratecode with
          | none => Except.error ("dim_ratecode")
          | some drc =>
            match dims.dim_payment_type with
            | none => Except.error ("dim_payment_type")
            | some dpt =>
              Except.ok (fact_trips df ⟨dv, ddt, dpl, ddl, drc, dpt⟩)

/-! ### The untyped frame model for `dtype_optimization` and
`datetime_conversion` (`main.py` lines 34-68)

Both functions are dtype-directed, so their embedding works on a frame of
named, dtype-tagged columns.  Integer columns carry `ℤ` values (pandas
integer dtypes hold no `NaN`), float columns carry exact rationals, object
and category columns carry `Option String` cells (`none` = `NaN`/`None`),
and datetime columns carry `Ts` cells. -/

/-- A pandas column together with its dtype tag. -/
inductive TypedCol where
  | object (vals : List (Option String))
  | category (vals : List (Option String))
  | int64 (vals : List ℤ)
  | int32 (vals : List ℤ)
  | int16 (vals : List ℤ)
  | int8 (vals : List ℤ)
  | float64 (vals : List ℚ)
  | float32 (vals : List ℚ)
  | datetime (vals : List Ts)
  | boolean (vals : List Bool)
deriving DecidableEq, Repr

/-- A pandas DataFrame for the dtype-directed stages: a row count (`len(df)`)
and named columns. -/
structure Frame where
  nrows : ℕ
  cols : List (String × TypedCol)
deriving DecidableEq, Repr

/-- Pandas `Series.nunique()` (default `dropna=True`): distinct non-null values. -/
def nuniqueStr (vals : List (Option String)) : ℕ :=
  (vals.filterMap id).dedup.length

/-- Embeds `pd.to_numeric(s, downcast='integer')` on an `int64` column: the first of
`int8`, `int16`, `int32` whose range holds every value, else `int64`
unchanged.  An empty column is left unchanged. -/
def downcastInt (vals : List ℤ) : TypedCol :=
  if vals.isEmpty then TypedCol.int64 vals
  else if vals.all (fun z => decide (-128 ≤ z ∧ z ≤ 127)) then TypedCol.int8 vals
  else if vals.all (fun z => decide (-32768 ≤ z ∧ z ≤ 32767)) then TypedCol.int16 vals
  else if vals.all (fun z => decide (-2147483648 ≤ z ∧ z ≤ 2147483647)) then TypedCol.int32 vals
  else TypedCol.int64 vals

/-- One iteration of the column loop of `dtype_optimization` (lines 52-61):

* an `object` column becomes `category` when `nunique()/len(df) < 0.05`
  (evaluating the condition on an empty frame raises `ZeroDivisionError`,
  embedded as `none`; the threshold is Python's `0.05`, taken here as the
  exact rational `1/20`);
* an `int64` column is downcast to the narrowest safe integer dtype;
* a `float64` column is downcast to `float32` when every value survives the
  round trip exactly — a fact of binary floating point, supplied as the
  predicate `fits32` since the frame model stores exact rationals;
* every other dtype is left unchanged.

Values are never altered, only dtype tags. -/
def optimizeCol (fits32 : List ℚ → Bool) (nrows : ℕ) : TypedCol → Option TypedCol
  | TypedCol.object vals =>
    if nrows = 0 then none
    else some (if 20 * nuniqueStr vals < nrows then TypedCol.category vals else TypedCol.object vals)
  | TypedCol.int64 vals => some (downcastInt vals)
  | TypedCol.float64 vals =>
    some (if vals.isEmpty then TypedCol.float64 vals
          else if fits32 vals then TypedCol.float32 vals else TypedCol.float64 vals)
  | c => some c

/-- The column loop of `dtype_optimization` over the whole frame; an
exception propagates out of the loop (`none`). -/
def optimizeCols (fits32 : List ℚ → Bool) (nrows : ℕ) :
    List (String × TypedCol) → Option (List (String × TypedCol))
  | [] => some []
  | c :: rest =>
    match optimizeCol fits32 nrows c.2 with
    | none => none
    | some c2 => (optimizeCols fits32 nrows rest).map (fun r => (c.1, c2) :: r)

/-- Embeds `dtype_optimization` (`main.py` lines 47-68) as a map from the frame
state before the call to the frame state after it (the memory reporting is
observability only).  `none` models an uncaught exception. -/
def dtype_optimization (fits32 : List ℚ → Bool) (f : Frame) : Option Frame :=
  (optimizeCols fits32 f.nrows f.cols).map (fun cs => ⟨f.nrows, cs⟩)

/-! ### `datetime_conversion` (`main.py` lines 34-44) -/

/-- Two decimal digit characters to a number. -/
def digits2 (a b : Char) : Option ℕ :=
  if a.isDigit ∧ b.isDigit then some ((a.toNat - 48) * 10 + (b.toNat - 48)) else none

def isLeapYear (y : ℤ) : Bool :=
  (Int.emod y 4 = 0 ∧ Int.emod y 100 ≠ 0) ∨ Int.emod y 400 = 0

def daysInMonth (y m : ℤ) : ℤ :=
  if m = 2 then (if isLeapYear y then 29 else 28)
  else if m = 4 ∨ m = 6 ∨ m = 9 ∨ m = 11 then 30
  else 31

/-- The timestamp parser behind `pd.to_datetime` as exercised by this
pipeline's extract: `YYYY-MM-DD HH:MM:SS` (with space or `T` separator),
validated against the civil calendar, yielding nanoseconds since the epoch;
`none` on anything unparsable. -/
def parseTimestamp (s : String) : Option ℤ :=
  match s.toList with
  | [y1, y2, y3, y4, h1, mo1, mo2, h2, da1, da2, sep, ho1, ho2, c1, mi1, mi2, c2, se1, se2] =>
    if h1 = '-' ∧ h2 = '-' ∧ (sep = ' ' ∨ sep = 'T') ∧ c1 = ':' ∧ c2 = ':' then
      match digits2 y1 y2, digits2 y3 y4, digits2 mo1 mo2, digits2 da1 da2,
            digits2 ho1 ho2, digits2 mi1 mi2, digits2 se1 se2 with
      | some yh, some yl, some mo, some da, some ho, some mi, some se =>
        let y : ℤ := yh * 100 + yl
        if 1 ≤ (mo : ℤ) ∧ (mo : ℤ) ≤ 12 ∧ 1 ≤ (da : ℤ) ∧ (da : ℤ) ≤ daysInMonth y mo ∧
           ho < 24 ∧ mi < 60 ∧ se < 60 then
          some ((daysFromCivil y mo da * 86400 + ho * 3600 + mi * 60 + se) * 1000000000)
        else none
      | _, _, _, _, _, _, _ => none
    else none
  | _ => none

/-- Embeds `pd.to_datetime(column, errors='coerce')` by dtype: strings are parsed
(unparsable cells coerce to `NaT`), numeric cells are taken as nanosecond
counts since the epoch (floats truncated), datetimes pass through, and a
boolean column raises `TypeError` even under `errors='coerce'` (`none`). -/
def toDatetimeCol : TypedCol → Option TypedCol
  | TypedCol.object vals => some (TypedCol.datetime (vals.map (fun o => o.bind parseTimestamp)))
  | TypedCol.category vals => some (TypedCol.datetime (vals.map (fun o => o.bind parseTimestamp)))
  | TypedCol.int64 vals => some (TypedCol.datetime (vals.map (fun z => some z)))
  | TypedCol.int32 vals => some (TypedCol.datetime (vals.map (fun z => some z)))
  | TypedCol.int16 vals => some (TypedCol.datetime (vals.map (fun z => some z)))
  | TypedCol.int8 vals => some (TypedCol.datetime (vals.map (fun z => some z)))
  | TypedCol.float64 vals => some (TypedCol.datetime (vals.map (fun q => some ⌊q⌋)))
  | TypedCol.float32 vals => some (TypedCol.datetime (vals.map (fun q => some ⌊q⌋)))
  | TypedCol.datetime vals => some (TypedCol.datetime vals)
  | TypedCol.boolean _ => none

/-- Embeds `df[name]`: first column of that name, if any. -/
def getCol (f : Frame) (name : String) : Option TypedCol :=
  (f.cols.find? (fun c => c.1 = name)).map Prod.snd

/-- Embeds `df[name] = col`: replace the column of that name (column names are
unique in a pandas frame). -/
def setCol (f : Frame) (name : String) (c : TypedCol) : Frame :=
  ⟨f.nrows, f.cols.map (fun p => if p.1 = name then (p.1, c) else p)⟩

/-- Embeds `datetime_conversion` (`main.py` lines 34-44) as a map from the frame
state before the call to the frame state after it.  Each column is converted
inside its own `try/except`: a missing column (`KeyError`) or a failed
conversion leaves that column as it was and the loop continues, so the
function itself never raises. -/
def datetime_conversion (f : Frame) (columns : List String) : Frame :=
  columns.foldl
    (fun acc col =>
      match getCol acc col with
      | none => acc
      | some c =>
        match toDatetimeCol c with
        | none => acc
        | some c2 => setCol acc col c2)
    f

/-! ### Object identity: the heap model

Python passes DataFrames by object reference, and both stages assign columns
back into the object they received (`df[col] = ...`) before returning `df`
itself.  To state claims about what the *caller's* table looks like after a
call, the heap of frame objects is explicit: a call takes the address of the
argument object and yields the heap after the call together with the address
of the returned object. -/

/-- Calling `dtype_optimization(df)` where `a` is the address of `df`:
the object at `a` is mutated to the optimized frame and the function returns
(the address of) that same object. -/
def dtype_optimization_call (fits32 : List ℚ → Bool) (heap : List Frame) (a : ℕ) :
    Option (List Frame × ℕ) :=
  match heap.get? a with
  | none => none
  | some f => (dtype_optimization fits32 f).map (fun g => (heap.set a g, a))

/-- Calling `datetime_conversion(df, columns)` where `a` is the address of
`df`: the object at `a` is mutated column by column and the function returns
(the address of) that same object. -/
def datetime_conversion_call (heap : List Frame) (a : ℕ) (columns : List String) :
    Option (List Frame × ℕ) :=
  match heap.get? a with
  | none => none
  | some f => some (heap.set a (datetime_conversion f columns), a)

/-! ### Concrete sample data used by witnesses and counterexamples -/

/-- Nanoseconds since the epoch of 2023-01-01T00:00:00 UTC
(`daysFromCivil 2023 1 1 = 19358` days). -/
def ts0 : ℤ := 1672531200000000000

/-- Instant 2023-01-01T00:12:30 UTC: 750 seconds after `ts0`. -/
def ts1 : ℤ := ts0 + 750000000000

/-- A raw row with the given vendor, instants and codes; measures fixed. -/
def mkRow (v : ℤ) (pu do_ : Ts) (rc pt : ℤ) : RawRow :=
  { VendorID := v
    tpep_pickup_datetime := pu
    tpep_dropoff_datetime := do_
    passenger_count := 1
    trip_distance := 2
    pickup_longitude := some (-74)
    pickup_latitude := some 40
    RatecodeID := rc
    store_and_fwd_flag := some ("N")
    dropoff_longitude := some (-73)
    dropoff_latitude := some 41
    payment_type := pt
    fare_amount := 10
    extra := 0
    mta_tax := 1/2
    tip_amount := 2
    tolls_amount := 0
    improvement_surcharge := 3/10
    total_amount := 13
  }

def exRow0 : RawRow := mkRow 1 (some ts0) (some ts1) 1 1

def exRow1 : RawRow := mkRow 99 (some ts0) (some ts0) 99 2

/-- A two-row raw table: vendor codes 1 and 99; first trip 12½ minutes long,
second of zero duration. -/
def exDf : List RawRow := [exRow0, exRow1]

def exDims : Dimensions := creating_dimensions_ok exDf

/-- A one-row raw table whose dropoff lies 750 seconds before its pickup. -/
def exDfNeg : List RawRow := [mkRow 2 (some ts1) (some ts0) 1 1]

def exDimsNeg : Dimensions := creating_dimensions_ok exDfNeg

/-- The vendor-dimension rows that `creating_dimensions` builds from `exDf`. -/
def vrowCMT : VendorRow := ⟨0, 1, some ("Creative Mobile Technologies, LLC")⟩

def vrow99 : VendorRow := ⟨1, 99, none⟩

/-- A raw table that has every column `creating_dimensions` declares except
`RatecodeID`, so building `dim_ratecode` raises `KeyError` while the five
other dimensions would individually be buildable. -/
def exDyn : DynRaw :=
  { present := ["VendorID", "tpep_pickup_datetime", "tpep_dropoff_datetime",
                "pickup_latitude", "pickup_longitude", "dropoff_latitude", "dropoff_longitude",
                "payment_type"]
    rows := [exRow0] }

/-- A dimension dict missing only the `dim_ratecode` key. -/
def exDictMissing : DimDict := { toDimDict exDims with dim_ratecode := none }

/-- A `float32`-representability oracle for witnesses (its value is
irrelevant to every theorem quantifying over `fits32`). -/
def fitsAll : List ℚ → Bool := fun _ => true

/-- A frame with an `int64` column of small values (downcastable) and a
high-cardinality `object` column (2 distinct values in 3 rows is above the
5% threshold, so it stays `object`). -/
def exF8 : Frame :=
  ⟨3, [("VendorID", TypedCol.int64 [1, 2, 2]),
       ("store_and_fwd_flag", TypedCol.object [some ("Y"), some ("N"), some ("N")])]⟩

/-- Frame `exF8` after `dtype_optimization`: the `int64` column became `int8`. -/
def exF8opt : Frame :=
  ⟨3, [("VendorID", TypedCol.int8 [1, 2, 2]),
       ("store_and_fwd_flag", TypedCol.object [some ("Y"), some ("N"), some ("N")])]⟩

/-- A one-column `int64` frame, and what `dtype_optimization` makes of it. -/
def exF9 : Frame := ⟨1, [("passenger_count", TypedCol.int64 [5])]⟩

def exF9opt : Frame := ⟨1, [("passenger_count", TypedCol.int8 [5])]⟩

/-- A frame whose pickup column holds a raw (not yet converted) nanosecond
count, and the same frame after `datetime_conversion`. -/
def exG9 : Frame := ⟨1, [("tpep_pickup_datetime", TypedCol.int64 [1672531200000000000])]⟩

def exG9conv : Frame := ⟨1, [("tpep_pickup_datetime", TypedCol.datetime [some 1672531200000000000])]⟩

/-! ### Helper lemmas -/

theorem mem_dedupFirstAux {α : Type} [DecidableEq α] (a : α) (xs : List α) :
    ∀ seen, a ∈ dedupFirstAux seen xs ↔ a ∈ xs ∧ a ∉ seen := by
  induction xs with
  | nil => intro seen; simp [dedupFirstAux]
  | cons x xs ih =>
    intro seen
    by_cases hx : x ∈ seen
    · rw [dedupFirstAux, if_pos hx, ih seen]
      simp only [List.mem_cons]
      constructor
      · rintro ⟨h1, h2⟩; exact ⟨Or.inr h1, h2⟩
      · rintro ⟨h1 | h1, h2⟩
        · exact absurd (h1 ▸ hx) h2
        · exact ⟨h1, h2⟩
    · rw [dedupFirstAux, if_neg hx]
      simp only [List.mem_cons, ih (x :: seen), List.mem_cons]
      constructor
      · rintro (rfl | ⟨h1, h2⟩)
        · exact ⟨Or.inl rfl, hx⟩
        · exact ⟨Or.inr h1, fun hc => h2 (Or.inr hc)⟩
      · rintro ⟨rfl | h1, h2⟩
        · exact Or.inl rfl
        · by_cases hax : a = x
          · exact Or.inl hax
          · exact Or.inr ⟨h1, fun hc => by
              rcases hc with hc | hc
              · exact hax hc
              · exact h2 hc⟩

/-- Membership in the embedding of `drop_duplicates` is membership in the
source column. -/
theorem mem_dedupFirst {α : Type} [DecidableEq α] {a : α} {xs : List α} :
    a ∈ dedupFirst xs ↔ a ∈ xs := by
  rw [dedupFirst, mem_dedupFirstAux]
  simp

theorem nodup_dedupFirstAux {α : Type} [DecidableEq α] (xs : List α) :
    ∀ seen, (dedupFirstAux seen xs).Nodup := by
  induction xs with
  | nil => intro seen; simp [dedupFirstAux]
  | cons x xs ih =>
    intro seen
    by_cases hx : x ∈ seen
    · rw [dedupFirstAux, if_pos hx]; exact ih seen
    · rw [dedupFirstAux, if_neg hx]
      refine List.nodup_cons.2 ⟨fun hmem => ?_, ih (x :: seen)⟩
      exact ((mem_dedupFirstAux x xs (x :: seen)).1 hmem).2 (List.mem_cons_self x seen)

/-- Running `drop_duplicates` leaves no duplicate rows. -/
theorem nodup_dedupFirst {α : Type} [DecidableEq α] (xs : List α) :
    (dedupFirst xs).Nodup :=
  nodup_dedupFirstAux xs []

/-- The surrogate-key column of a dimension built by enumerating a
deduplicated projection is `0, 1, 2, …` in order. -/
theorem enumKey_map {α β : Type} (xs : List α) (mk : ℕ × α → β) (key : β → ℕ)
    (hkey : ∀ p, key (mk p) = p.1) :
    (xs.enum.map mk).map key = List.range xs.length := by
  rw [List.map_map]
  have hc : (key ∘ mk) = Prod.fst := funext fun p => hkey p
  rw [hc, List.enum_map_fst]

/-- The natural-key column of a dimension built by enumerating a
deduplicated projection is exactly that projection. -/
theorem enumNat_map {α β : Type} (xs : List α) (mk : ℕ × α → β) (nat : β → α)
    (hnat : ∀ p, nat (mk p) = p.2) :
    (xs.enum.map mk).map nat = xs := by
  rw [List.map_map]
  have hc : (nat ∘ mk) = Prod.snd := funext fun p => hnat p
  rw [hc, List.enum_map_snd]

/-- The three invariants of one dimension build: keys are `0..n-1` in order,
natural keys are duplicate-free, and natural keys are the deduplicated
source column in first-occurrence order. -/
theorem buildDim_facts {α β : Type} [DecidableEq α] (src : List α) (mk : ℕ × α → β)
    (key : β → ℕ) (nat : β → α)
    (hkey : ∀ p, key (mk p) = p.1) (hnat : ∀ p, nat (mk p) = p.2) :
    ((dedupFirst src).enum.map mk).map key = List.range ((dedupFirst src).enum.map mk).length ∧
    (((dedupFirst src).enum.map mk).map nat).Nodup ∧
    ((dedupFirst src).enum.map mk).map nat = dedupFirst src := by
  have hlen : ((dedupFirst src).enum.map mk).length = (dedupFirst src).length := by
    rw [List.length_map, List.enum_length]
  refine ⟨?_, ?_, ?_⟩
  · rw [hlen]; exact enumKey_map (dedupFirst src) mk key hkey
  · rw [enumNat_map (dedupFirst src) mk nat hnat]; exact nodup_dedupFirst src
  · exact enumNat_map (dedupFirst src) mk nat hnat

/-- A successful index lookup yields a key present in the key column. -/
theorem map_find?_mem {α : Type} {l : List α} {p : α → Bool} {key : α → ℕ} {k : ℕ}
    (h : (l.find? p).map key = some k) : k ∈ l.map key := by
  rcases Option.map_eq_some'.1 h with ⟨r, hf, hk⟩
  exact hk ▸ List.mem_map_of_mem key (List.mem_of_find?_eq_some hf)

/-- An index lookup of a value that occurs in the indexed column succeeds. -/
theorem map_find?_ne_none {α β : Type} {l : List α} {p : α → Bool} {key : α → β} {x : α}
    (hx : x ∈ l) (hp : p x = true) : (l.find? p).map key ≠ none := by
  intro h
  rw [Option.map_eq_none'] at h
  have := List.find?_isSome.2 ⟨x, hx, hp⟩
  rw [h] at this
  simp at this

/-- The natural-key column of `dim_datetime` is the deduplicated
concatenation of the pickup and dropoff columns. -/
theorem dim_datetime_full_map (df : List RawRow) :
    (dim_datetime df).map DatetimeRow.full_datetime =
      dedupFirst (df.map RawRow.tpep_pickup_datetime ++ df.map RawRow.tpep_dropoff_datetime) :=
  enumNat_map _ calendarRow DatetimeRow.full_datetime (fun _ => rfl)

/-- An element of `l.enum` is an indexed element of `l`. -/
theorem snd_mem_of_mem_enum {α : Type} {l : List α} {p : ℕ × α} (hp : p ∈ l.enum) :
    p.2 ∈ l := by
  have h1 := List.mem_enum_iff_getElem?.1 hp
  rw [← List.get?_eq_getElem?] at h1
  exact List.get?_mem h1

/-! ### Claim C1: row-count invariance of the fact build -/

/-- Claim C1: for every raw input table, the fact table produced by
`creating_facts` has exactly one row per raw input row — whenever the
builder returns a fact table, its row count equals the raw table's. -/
theorem creating_facts_rowcount (df : List RawRow) (dims : DimDict) (F : List FactRow)
    (h : creating_facts df dims = Except.ok F) : F.length = df.length := by
  rcases dims with ⟨v, dt, pl, dl, rc, pt⟩
  cases v <;> cases dt <;> cases pl <;> cases dl <;> cases rc <;> cases pt <;>
    simp only [creating_facts, Except.error.injEq, reduceCtorEq] at h
  obtain rfl := Except.ok.inj h
  rw [fact_trips, List.length_map, List.enum_length]

/-- Witness for C1 on the concrete two-row table `exDf`. -/
theorem creating_facts_rowcount_witness :
    creating_facts exDf (toDimDict exDims) = Except.ok (fact_trips exDf exDims) ∧
    (fact_trips exDf exDims).length = exDf.length :=
  ⟨rfl, creating_facts_rowcount exDf (toDimDict exDims) (fact_trips exDf exDims) rfl⟩

/-! ### Claim C2: surrogate-key and natural-key invariants of the dimensions -/

/-- Claim C2: in every dimension table built by `creating_dimensions`, the
surrogate keys are exactly `0, 1, 2, …` in order (hence unique, 0-based and
sequential, the same base for every dimension), and the natural-key column
is the deduplicated source projection in first-occurrence order (hence free
of duplicate attribute combinations). -/
theorem creating_dimensions_key_invariants (df : List RawRow) :
    ((creating_dimensions_ok df).dim_vendor.map VendorRow.dim_vendor_key =
        List.range (creating_dimensions_ok df).dim_vendor.length ∧
      ((creating_dimensions_ok df).dim_vendor.map VendorRow.VendorID).Nodup ∧
      (creating_dimensions_ok df).dim_vendor.map VendorRow.VendorID =
        dedupFirst (df.map RawRow.VendorID)) ∧
    ((creating_dimensions_ok df).dim_datetime.map DatetimeRow.dim_datetime_key =
        List.range (creating_dimensions_ok df).dim_datetime.length ∧
      ((creating_dimensions_ok df).dim_datetime.map DatetimeRow.full_datetime).Nodup ∧
      (creating_dimensions_ok df).dim_datetime.map DatetimeRow.full_datetime =
        dedupFirst (df.map RawRow.tpep_pickup_datetime ++ df.map RawRow.tpep_dropoff_datetime)) ∧
    ((creating_dimensions_ok df).dim_pickup_location.map
        PickupLocationRow.dim_pickup_location_key =
        List.range (creating_dimensions_ok df).dim_pickup_location.length ∧
      ((creating_dimensions_ok df).dim_pickup_location.map
        (fun r => (r.pickup_latitude, r.pickup_longitude))).Nodup ∧
      (creating_dimensions_ok df).dim_pickup_location.map
        (fun r => (r.pickup_latitude, r.pickup_longitude)) =
        dedupFirst (df.map (fun r => (r.pickup_latitude, r.pickup_longitude)))) ∧
    ((creating_dimensions_ok df).dim_dropoff_location.map
        DropoffLocationRow.dim_dropoff_location_key =
        List.range (creating_dimensions_ok df).dim_dropoff_location.length ∧
      ((creating_dimensions_ok df).dim_dropoff_location.map
        (fun r => (r.dropoff_latitude, r.dropoff_longitude))).Nodup ∧
      (creating_dimensions_ok df).dim_dropoff_location.map
        (fun r => (r.dropoff_latitude, r.dropoff_longitude)) =
        dedupFirst (df.map (fun r => (r.dropoff_latitude, r.dropoff_longitude)))) ∧
    ((creating_dimensions_ok df).dim_ratecode.map RatecodeRow.dim_ratecode_key =
        List.range (creating_dimensions_ok df).dim_ratecode.length ∧
      ((creating_dimensions_ok df).dim_ratecode.map RatecodeRow.RatecodeID).Nodup ∧
      (creating_dimensions_ok df).dim_ratecode.map RatecodeRow.RatecodeID =
        dedupFirst (df.map RawRow.RatecodeID)) ∧
    ((creating_dimensions_ok df).dim_payment_type.map PaymentTypeRow.dim_payment_type_key =
        List.range (creating_dimensions_ok df).dim_payment_type.length ∧
      ((creating_dimensions_ok df).dim_payment_type.map PaymentTypeRow.payment_type).Nodup ∧
      (creating_dimensions_ok df).dim_payment_type.map PaymentTypeRow.payment_type =
        dedupFirst (df.map RawRow.payment_type)) := by
  refine ⟨?_, ?_, ?_, ?_, ?_, ?_⟩
  · exact buildDim_facts (df.map RawRow.VendorID) _ _ _ (fun _ => rfl) (fun _ => rfl)
  · exact buildDim_facts _ calendarRow _ _ (fun _ => rfl) (fun _ => rfl)
  · exact buildDim_facts (df.map (fun r => (r.pickup_latitude, r.pickup_longitude)))
      (fun p => (⟨p.1, p.2.1, p.2.2⟩ : PickupLocationRow))
      PickupLocationRow.dim_pickup_location_key
      (fun r => (r.pickup_latitude, r.pickup_longitude)) (fun _ => rfl) (fun _ => rfl)
  · exact buildDim_facts (df.map (fun r => (r.dropoff_latitude, r.dropoff_longitude)))
      (fun p => (⟨p.1, p.2.1, p.2.2⟩ : DropoffLocationRow))
      DropoffLocationRow.dim_dropoff_location_key
      (fun r => (r.dropoff_latitude, r.dropoff_longitude)) (fun _ => rfl) (fun _ => rfl)
  · exact buildDim_facts (df.map RawRow.RatecodeID) _ _ _ (fun _ => rfl) (fun _ => rfl)
  · exact buildDim_facts (df.map RawRow.payment_type) _ _ _ (fun _ => rfl) (fun _ => rfl)

/-! ### Claim C3: referential completeness of the non-null foreign keys -/

/-- Claim C3: every non-null foreign key of every fact row produced by
`creating_facts` from a raw table and the dimensions built from it is a
surrogate key present in the corresponding dimension table. -/
theorem fact_foreign_keys_resolve (df : List RawRow) (frow : FactRow)
    (hf : frow ∈ fact_trips df (creating_dimensions_ok df)) :
    (∀ k, frow.dim_vendor_key = some k →
      k ∈ (creating_dimensions_ok df).dim_vendor.map VendorRow.dim_vendor_key) ∧
    (∀ k, frow.pickup_datetime_key = some k →
      k ∈ (creating_dimensions_ok df).dim_datetime.map DatetimeRow.dim_datetime_key) ∧
    (∀ k, frow.dropoff_datetime_key = some k →
      k ∈ (creating_dimensions_ok df).dim_datetime.map DatetimeRow.dim_datetime_key) ∧
    (∀ k, frow.dim_pickup_location_key = some k →
      k ∈ (creating_dimensions_ok df).dim_pickup_location.map
        PickupLocationRow.dim_pickup_location_key) ∧
    (∀ k, frow.dim_dropoff_location_key = some k →
      k ∈ (creating_dimensions_ok df).dim_dropoff_location.map
        DropoffLocationRow.dim_dropoff_location_key) ∧
    (∀ k, frow.dim_ratecode_key = some k →
      k ∈ (creating_dimensions_ok df).dim_ratecode.map RatecodeRow.dim_ratecode_key) ∧
    (∀ k, frow.dim_payment_type_key = some k →
      k ∈ (creating_dimensions_ok df).dim_payment_type.map
        PaymentTypeRow.dim_payment_type_key) := by
  rcases List.mem_map.1 hf with ⟨p, hp, rfl⟩
  exact ⟨fun k hk => map_find?_mem hk, fun k hk => map_find?_mem hk,
    fun k hk => map_find?_mem hk, fun k hk => map_find?_mem hk,
    fun k hk => map_find?_mem hk, fun k hk => map_find?_mem hk,
    fun k hk => map_find?_mem hk⟩

/-- Witness for C3: the first fact row built from `exDf`, with its vendor
foreign key resolving into the vendor dimension. -/
theorem fact_foreign_keys_resolve_witness :
    factRowOf exDims 0 exRow0 ∈ fact_trips exDf exDims ∧
    (∀ k, (factRowOf exDims 0 exRow0).dim_vendor_key = some k →
      k ∈ exDims.dim_vendor.map VendorRow.dim_vendor_key) := by
  have hm : factRowOf exDims 0 exRow0 ∈ fact_trips exDf exDims :=
    @List.get?_mem FactRow (fact_trips exDf exDims) 0 (factRowOf exDims 0 exRow0) rfl
  exact ⟨hm, (fact_foreign_keys_resolve exDf (factRowOf exDims 0 exRow0) hm).1⟩

/-! ### Claim C4: the derived trip-duration measure -/

/-- Claim C4: for every fact row, `trip_duration_minutes` is the dropoff
instant minus the pickup instant in seconds, divided by 60 and rounded to 2
decimal places (`NaN` when either instant is `NaT`); on the concrete table
whose first trip runs 2023-01-01T00:00:00 to 2023-01-01T00:12:30 the derived
duration is 12.50 minutes, and a negative duration is retained as-is. -/
theorem fact_trip_duration :
    (∀ (df : List RawRow) (dims : Dimensions) (i : ℕ),
      ((fact_trips df dims).get? i).map FactRow.trip_duration_minutes =
        (df.get? i).map (fun r =>
          match r.tpep_pickup_datetime, r.tpep_dropoff_datetime with
          | some p, some d => some (round2 (((d : ℚ) - (p : ℚ)) / 1000000000 / 60))
          | _, _ => none)) ∧
    (fact_trips exDf exDims).map FactRow.trip_duration_minutes =
      [some ((1250 : ℚ) / 100), some 0] ∧
    (fact_trips exDfNeg exDimsNeg).map FactRow.trip_duration_minutes =
      [some (-((1250 : ℚ) / 100))] := by
  refine ⟨?_, ?_, ?_⟩
  · intro df dims i
    rw [fact_trips, List.get?_map, List.get?_enum, Option.map_map, Option.map_map]
    cases h : df.get? i with
    | none => rfl
    | some r =>
      simp only [Option.map_some', Function.comp]
      rfl
  · show [(factRowOf exDims 0 exRow0).trip_duration_minutes,
          (factRowOf exDims 1 exRow1).trip_duration_minutes] = _
    show [tripDurationMinutes (some ts0) (some ts1), tripDurationMinutes (some ts0) (some ts0)] = _
    rw [tripDurationMinutes, tripDurationMinutes]
    norm_num [ts1, ts0, round2, roundHalfEven]
  · show [(factRowOf exDimsNeg 0 (mkRow 2 (some ts1) (some ts0) 1 1)).trip_duration_minutes] = _
    show [tripDurationMinutes (some ts1) (some ts0)] = _
    rw [tripDurationMinutes]
    norm_num [ts1, ts0, round2, roundHalfEven]

/-! ### Claim C5: the static vendor lookup -/

/-- Claim C5: in the vendor dimension built by `creating_dimensions`, a row
with vendor code 1 carries the label `Creative Mobile Technologies, LLC`,
and a row whose code is absent from the static lookup (for example 99)
carries no label (`NaN`), the build succeeding regardless. -/
theorem dim_vendor_lookup (df : List RawRow) (row : VendorRow)
    (h : row ∈ (creating_dimensions_ok df).dim_vendor) :
    (row.VendorID = 1 → row.vendor_name = some ("Creative Mobile Technologies, LLC")) ∧
    (row.VendorID ≠ 1 ∧ row.VendorID ≠ 2 ∧ row.VendorID ≠ 6 ∧ row.VendorID ≠ 7 →
      row.vendor_name = none) := by
  rcases List.mem_map.1 h with ⟨p, hp, rfl⟩
  constructor
  · intro h1
    show vendor_dict p.2 = _
    have : p.2 = 1 := h1
    rw [this, vendor_dict, if_pos rfl]
  · rintro ⟨h1, h2, h6, h7⟩
    show vendor_dict p.2 = none
    rw [vendor_dict, if_neg h1, if_neg h2, if_neg h6, if_neg h7]

/-- Witness for C5 on `exDf`, whose vendor dimension holds codes 1 and 99. -/
theorem dim_vendor_lookup_witness :
    (vrowCMT ∈ (creating_dimensions_ok exDf).dim_vendor ∧
      vrowCMT.vendor_name = some ("Creative Mobile Technologies, LLC")) ∧
    (vrow99 ∈ (creating_dimensions_ok exDf).dim_vendor ∧ vrow99.vendor_name = none) := by
  have h1 : vrowCMT ∈ (creating_dimensions_ok exDf).dim_vendor := by decide
  have h2 : vrow99 ∈ (creating_dimensions_ok exDf).dim_vendor := by decide
  exact ⟨⟨h1, (dim_vendor_lookup exDf vrowCMT h1).1 (by decide)⟩,
         ⟨h2, (dim_vendor_lookup exDf vrow99 h2).2 (by decide)⟩⟩

/-! ### Claim C6: failure behaviour of the dimension builder

The claim says a single dimension's failure leaves the other dimensions
built and surfaces as a per-dimension failure marker.  The code wraps all
six builds in one `try` whose `except` clause returns `{}`: on `exDyn`
(every column present except `RatecodeID`) the result is the empty mapping,
with no entry — table or marker — for any dimension. -/

/-- Counterexample to C6 as stated: on a one-row table having every declared
column except `RatecodeID`, `creating_dimensions` returns the empty mapping,
so no other dimension is constructed and no per-dimension failure marker
exists. -/
theorem creating_dimensions_abort_counterexample :
    "RatecodeID" ∉ exDyn.present ∧ "VendorID" ∈ exDyn.present ∧
    "tpep_pickup_datetime" ∈ exDyn.present ∧ exDyn.rows ≠ [] ∧
    creating_dimensions exDyn = [] :=
  ⟨by decide, by decide, by decide, by decide, rfl⟩

/-- Amended C6: if any declared source column is missing, the single
`try/except` of `creating_dimensions` returns the empty mapping — every
dimension is dropped and no failure marker is recorded; only when every
declared column is present does the result map all six dimension names. -/
theorem creating_dimensions_all_or_nothing (d : DynRaw) :
    (¬ (∀ c ∈ requiredDimColumns, c ∈ d.present) → creating_dimensions d = []) ∧
    ((∀ c ∈ requiredDimColumns, c ∈ d.present) →
      (creating_dimensions d).map Prod.fst =
        ["dim_vendor", "dim_datetime", "dim_pickup_location", "dim_dropoff_location",
         "dim_ratecode", "dim_payment_type"]) := by
  constructor
  · intro h
    rw [creating_dimensions, if_neg]
    simpa [List.all_eq_true] using h
  · intro h
    rw [creating_dimensions, if_pos]
    · rfl
    · simpa [List.all_eq_true] using h

/-- Witness for the amended C6 on `exDyn`. -/
theorem creating_dimensions_all_or_nothing_witness :
    (¬ (∀ c ∈ requiredDimColumns, c ∈ exDyn.present)) ∧ creating_dimensions exDyn = [] :=
  ⟨by decide, (creating_dimensions_all_or_nothing exDyn).1 (by decide)⟩

/-! ### Claim C7: failure behaviour of the fact builder -/

/-- Claim C7: if any of the six required dimensions is absent from the
mapping handed to `creating_facts`, no fact table is produced and the
builder reports an error naming a dimension that is indeed missing. -/
theorem creating_facts_missing_dimension (df : List RawRow) (dims : DimDict)
    (h : dims.dim_vendor = none ∨ dims.dim_datetime = none ∨
         dims.dim_pickup_location = none ∨ dims.dim_dropoff_location = none ∨
         dims.dim_ratecode = none ∨ dims.dim_payment_type = none) :
    ∃ name, creating_facts df dims = Except.error name ∧
      ((name = "dim_vendor" ∧ dims.dim_vendor = none) ∨
       (name = "dim_datetime" ∧ dims.dim_datetime = none) ∨
       (name = "dim_pickup_location" ∧ dims.dim_pickup_location = none) ∨
       (name = "dim_dropoff_location" ∧ dims.dim_dropoff_location = none) ∨
       (name = "dim_ratecode" ∧ dims.dim_ratecode = none) ∨
       (name = "dim_payment_type" ∧ dims.dim_payment_type = none)) := by
  rcases dims with ⟨v, dt, pl, dl, rc, pt⟩
  cases v with
  | none => exact ⟨"dim_vendor", rfl, Or.inl ⟨rfl, rfl⟩⟩
  | some dv =>
    cases dt with
    | none => exact ⟨"dim_datetime", rfl, Or.inr (Or.inl ⟨rfl, rfl⟩)⟩
    | some ddt =>
      cases pl with
      | none => exact ⟨"dim_pickup_location", rfl, Or.inr (Or.inr (Or.inl ⟨rfl, rfl⟩))⟩
      | some dpl =>
        cases dl with
        | none =>
          exact ⟨"dim_dropoff_location", rfl, Or.inr (Or.inr (Or.inr (Or.inl ⟨rfl, rfl⟩)))⟩
        | some ddl =>
          cases rc with
          | none =>
            exact ⟨"dim_ratecode", rfl,
              Or.inr (Or.inr (Or.inr (Or.inr (Or.inl ⟨rfl, rfl⟩))))⟩
          | some drc =>
            cases pt with
            | none =>
              exact ⟨"dim_payment_type", rfl,
                Or.inr (Or.inr (Or.inr (Or.inr (Or.inr ⟨rfl, rfl⟩))))⟩
            | some dpt => simp at h

/-- Witness for C7: a dict holding every dimension except `dim_ratecode`. -/
theorem creating_facts_missing_dimension_witness :
    exDictMissing.dim_ratecode = none ∧
    (∃ name, creating_facts exDf exDictMissing = Except.error name ∧
      ((name = "dim_vendor" ∧ exDictMissing.dim_vendor = none) ∨
       (name = "dim_datetime" ∧ exDictMissing.dim_datetime = none) ∨
       (name = "dim_pickup_location" ∧ exDictMissing.dim_pickup_location = none) ∨
       (name = "dim_dropoff_location" ∧ exDictMissing.dim_dropoff_location = none) ∨
       (name = "dim_ratecode" ∧ exDictMissing.dim_ratecode = none) ∨
       (name = "dim_payment_type" ∧ exDictMissing.dim_payment_type = none))) :=
  ⟨rfl, creating_facts_missing_dimension exDf exDictMissing
    (Or.inr (Or.inr (Or.inr (Or.inr (Or.inl rfl)))))⟩

/-! ### Claim C8: idempotence of the type normalizer -/

/-- One optimized column is a fixed point of the column rule: a `category`,
`float32` or narrow integer column is out of scope of every branch, and a
column kept at its dtype fails the same branch condition again. -/
theorem optimizeCol_fixpoint (fits32 : List ℚ → Bool) (n : ℕ) (c c2 : TypedCol)
    (h : optimizeCol fits32 n c = some c2) : optimizeCol fits32 n c2 = some c2 := by
  cases c with
  | object vals =>
    rw [optimizeCol] at h
    by_cases hn : n = 0
    · rw [if_pos hn] at h; exact absurd h (by simp)
    · rw [if_neg hn] at h
      obtain rfl := Option.some.inj h
      by_cases hc : 20 * nuniqueStr vals < n
      · rw [if_pos hc]; rfl
      · rw [if_neg hc, optimizeCol, if_neg hn, if_neg hc]
  | int64 vals =>
    obtain rfl := Option.some.inj h
    rw [downcastInt]
    by_cases h0 : vals.isEmpty
    · rw [if_pos h0, optimizeCol, downcastInt, if_pos h0]
    · rw [if_neg h0]
      by_cases h8 : vals.all (fun z => decide (-128 ≤ z ∧ z ≤ 127))
      · rw [if_pos h8]; rfl
      · rw [if_neg h8]
        by_cases h16 : vals.all (fun z => decide (-32768 ≤ z ∧ z ≤ 32767))
        · rw [if_pos h16]; rfl
        · rw [if_neg h16]
          by_cases h32 : vals.all (fun z => decide (-2147483648 ≤ z ∧ z ≤ 2147483647))
          · rw [if_pos h32]; rfl
          · rw [if_neg h32, optimizeCol, downcastInt, if_neg h0, if_neg h8, if_neg h16,
              if_neg h32]
  | float64 vals =>
    rw [optimizeCol] at h
    obtain rfl := Option.some.inj h
    by_cases h0 : vals.isEmpty
    · rw [if_pos h0, optimizeCol, if_pos h0]
    · rw [if_neg h0]
      by_cases hf : fits32 vals
      · rw [if_pos hf]; rfl
      · rw [if_neg hf, optimizeCol, if_neg h0, if_neg hf]
  | category vals => obtain rfl := Option.some.inj h; rfl
  | int32 vals => obtain rfl := Option.some.inj h; rfl
  | int16 vals => obtain rfl := Option.some.inj h; rfl
  | int8 vals => obtain rfl := Option.some.inj h; rfl
  | float32 vals => obtain rfl := Option.some.inj h; rfl
  | datetime vals => obtain rfl := Option.some.inj h; rfl
  | boolean vals => obtain rfl := Option.some.inj h; rfl

/-- The full column loop is a fixed point on its own output. -/
theorem optimizeCols_fixpoint (fits32 : List ℚ → Bool) (n : ℕ)
    (cs cs2 : List (String × TypedCol)) (h : optimizeCols fits32 n cs = some cs2) :
    optimizeCols fits32 n cs2 = some cs2 := by
  induction cs generalizing cs2 with
  | nil =>
    rw [optimizeCols] at h
    obtain rfl := Option.some.inj h
    rfl
  | cons c rest ih =>
    rw [optimizeCols] at h
    cases hc : optimizeCol fits32 n c.2 with
    | none => rw [hc] at h; exact absurd h (by simp)
    | some c2 =>
      rw [hc] at h
      cases hr : optimizeCols fits32 n rest with
      | none => rw [hr] at h; exact absurd h (by simp)
      | some r2 =>
        rw [hr] at h
        obtain rfl := Option.some.inj h
        rw [optimizeCols]
        show (match optimizeCol fits32 n c2 with
          | none => none
          | some c3 => (optimizeCols fits32 n r2).map (fun r => (c.1, c3) :: r)) = _
        rw [optimizeCol_fixpoint fits32 n c.2 c2 hc, ih r2 hr]
        rfl

/-- Claim C8: `dtype_optimization` is idempotent — whenever it succeeds,
running it again on its own output changes no column's dtype or values (the
output frame is a fixed point). -/
theorem dtype_optimization_idempotent (fits32 : List ℚ → Bool) (f g : Frame)
    (h : dtype_optimization fits32 f = some g) :
    dtype_optimization fits32 g = some g := by
  rw [dtype_optimization] at h
  cases hc : optimizeCols fits32 f.nrows f.cols with
  | none => rw [hc] at h; exact absurd h (by simp)
  | some cs =>
    rw [hc] at h
    obtain rfl := Option.some.inj h
    rw [dtype_optimization]
    show (optimizeCols fits32 f.nrows cs).map (fun cs2 => (⟨f.nrows, cs2⟩ : Frame)) = _
    rw [optimizeCols_fixpoint fits32 f.nrows f.cols cs hc]
    rfl

/-- Witness for C8 on `exF8` (an `int64` column that downcasts to `int8` and
a 67%-cardinality `object` column that stays `object`). -/
theorem dtype_optimization_idempotent_witness :
    dtype_optimization fitsAll exF8 = some exF8opt ∧
    dtype_optimization fitsAll exF8opt = some exF8opt :=
  ⟨by decide, dtype_optimization_idempotent fitsAll exF8 exF8opt (by decide)⟩

/-! ### Claim C9: in-place mutation of the caller's table

The claim says neither `dtype_optimization` nor `datetime_conversion`
changes the table object passed in.  Both assign columns back into that very
object (`df[col] = ...`) and return it, so after the call the caller's
object holds the transformed frame. -/

/-- Counterexample to C9 as stated: after `dtype_optimization` on a heap
holding one `int64` frame, the caller's object holds an `int8` column, and
after `datetime_conversion` on a heap holding one raw timestamp frame the
caller's object holds a `datetime` column — both differ from the frames
passed in. -/
theorem stage_mutation_counterexample :
    dtype_optimization_call fitsAll [exF9] 0 = some ([exF9opt], 0) ∧ exF9opt ≠ exF9 ∧
    datetime_conversion_call [exG9] 0 ["tpep_pickup_datetime"] = some ([exG9conv], 0) ∧
    exG9conv ≠ exG9 := by
  refine ⟨by decide, by decide, ?_, by decide⟩
  rfl

/-- Amended C9: each stage mutates its caller's table in place — the call
returns the address of the argument object itself, and after the call the
caller's object holds the stage's output frame (no independent copy is
made); the caller's table is unchanged only when the transformation fixes
the frame. -/
theorem stage_mutates_in_place (heap : List Frame) (a : ℕ) (f : Frame)
    (columns : List String) (fits32 : List ℚ → Bool) (g : Frame)
    (hf : heap.get? a = some f) (hopt : dtype_optimization fits32 f = some g) :
    (dtype_optimization_call fits32 heap a = some (heap.set a g, a) ∧
      (heap.set a g).get? a = some g) ∧
    (datetime_conversion_call heap a columns =
        some (heap.set a (datetime_conversion f columns), a) ∧
      (heap.set a (datetime_conversion f columns)).get? a =
        some (datetime_conversion f columns)) := by
  have hset : ∀ x : Frame, (heap.set a x).get? a = some x := by
    intro x
    rw [List.get?_eq_getElem?, List.getElem?_set_self', ← List.get?_eq_getElem?, hf]
    rfl
  refine ⟨⟨?_, hset g⟩, ⟨?_, hset (datetime_conversion f columns)⟩⟩
  · rw [dtype_optimization_call, hf]
    show (dtype_optimization fits32 f).map (fun g => (heap.set a g, a)) = _
    rw [hopt]
    rfl
  · rw [datetime_conversion_call, hf]

/-- Witness for the amended C9 on the one-object heap `[exF9]`. -/
theorem stage_mutates_in_place_witness :
    ([exF9].get? 0 = some exF9 ∧ dtype_optimization fitsAll exF9 = some exF9opt) ∧
    ((dtype_optimization_call fitsAll [exF9] 0 = some ([exF9].set 0 exF9opt, 0) ∧
        ([exF9].set 0 exF9opt).get? 0 = some exF9opt) ∧
      (datetime_conversion_call [exF9] 0 ["tpep_pickup_datetime"] =
          some ([exF9].set 0 (datetime_conversion exF9 ["tpep_pickup_datetime"]), 0) ∧
        ([exF9].set 0 (datetime_conversion exF9 ["tpep_pickup_datetime"])).get? 0 =
          some (datetime_conversion exF9 ["tpep_pickup_datetime"]))) :=
  ⟨⟨rfl, by decide⟩,
    stage_mutates_in_place [exF9] 0 exF9 ["tpep_pickup_datetime"] fitsAll exF9opt rfl (by decide)⟩

/-! ### Claim C10: the datetime foreign keys are never null -/

/-- Claim C10: because `dim_datetime` is built from the union of the pickup
and dropoff columns of the same raw table the fact builder consumes, the
pickup and dropoff datetime keys of every fact row resolve — neither is ever
null. -/
theorem fact_datetime_keys_total (df : List RawRow) (frow : FactRow)
    (hf : frow ∈ fact_trips df (creating_dimensions_ok df)) :
    frow.pickup_datetime_key ≠ none ∧ frow.dropoff_datetime_key ≠ none := by
  rcases List.mem_map.1 hf with ⟨p, hp, rfl⟩
  have hr : p.2 ∈ df := snd_mem_of_mem_enum hp
  constructor
  · show datetimeKeyOf (dim_datetime df) p.2.tpep_pickup_datetime ≠ none
    have hv : p.2.tpep_pickup_datetime ∈
        dedupFirst (df.map RawRow.tpep_pickup_datetime ++ df.map RawRow.tpep_dropoff_datetime) :=
      mem_dedupFirst.2 (List.mem_append.2 (Or.inl (List.mem_map_of_mem _ hr)))
    rw [← dim_datetime_full_map] at hv
    rcases List.mem_map.1 hv with ⟨drow, hd, he⟩
    exact map_find?_ne_none hd (by simp [he])
  · show datetimeKeyOf (dim_datetime df) p.2.tpep_dropoff_datetime ≠ none
    have hv : p.2.tpep_dropoff_datetime ∈
        dedupFirst (df.map RawRow.tpep_pickup_datetime ++ df.map RawRow.tpep_dropoff_datetime) :=
      mem_dedupFirst.2 (List.mem_append.2 (Or.inr (List.mem_map_of_mem _ hr)))
    rw [← dim_datetime_full_map] at hv
    rcases List.mem_map.1 hv with ⟨drow, hd, he⟩
    exact map_find?_ne_none hd (by simp [he])

/-- Witness for C10: the second fact row built from `exDf`. -/
theorem fact_datetime_keys_total_witness :
    factRowOf exDims 1 exRow1 ∈ fact_trips exDf exDims ∧
    (factRowOf exDims 1 exRow1).pickup_datetime_key ≠ none ∧
    (factRowOf exDims 1 exRow1).dropoff_datetime_key ≠ none := by
  have hm : factRowOf exDims 1 exRow1 ∈ fact_trips exDf exDims :=
    @List.get?_mem FactRow (fact_trips exDf exDims) 1 (factRowOf exDims 1 exRow1) rfl
  exact ⟨hm, fact_datetime_keys_total exDf (factRowOf exDims 1 exRow1) hm⟩

end TaxiETL
